import Mathlib

/-!
Verification development for the feature-scheduler core:
a shallow embedding of `features/conditions.py`,
`surveys/scripted_surveys.py` and `surveys/dd_surveys.py`,
together with theorems settling the specification claims.

Numbers carried by the Python code as floats are embedded as rationals
(`ℚ`); external numeric collaborators (`lsst.sims.utils`, `healpy`,
`numpy` trigonometry) are black-box services per the spec and are
threaded through a `Primitives` record of function parameters.
-/

unseal Rat.add Rat.sub Rat.mul Rat.inv

/-- External collaborator services consumed as black boxes by the core
(the spec's "SkyGrid primitive" and coordinate/photometric transforms):
`radians` is `np.radians`, `twoPi` the float constant `2*np.pi`,
`approxRaDec2AltAz ra dec lat lon mjd` returns `(alt, az)` per pixel
(`_approx_RaDec2AltAz` as called by `Conditions.calc_altAz`),
`approxRaDec2AltAzLmst ra dec lat mjd lmst` the same transform called
with `lon=None` and an explicit `lmst` (as in
`Pairs_survey_scripted._check_alts`), `raDec2Hpid` is `_raDec2Hpid`,
`hpid2RaDec` is `_hpid2RaDec`, and `m5FlatSed f sky fwhm exptime airmass`
is `m5_flat_sed`. -/
structure Primitives where
  radians : ℚ → ℚ
  twoPi : ℚ
  approxRaDec2AltAz : ℚ → ℚ → ℚ → ℚ → ℚ → ℚ × ℚ
  approxRaDec2AltAzLmst : ℚ → ℚ → ℚ → ℚ → ℚ → ℚ × ℚ
  raDec2Hpid : Nat → ℚ → ℚ → Nat
  hpid2RaDec : Nat → Nat → ℚ × ℚ
  m5FlatSed : Char → ℚ → ℚ → ℚ → ℚ → ℚ

/-- An observation record (`empty_observation()` rows): position, filter,
exposure parameters, free-text annotation (`note`, kept as a character
list so that Python substring tests embed as list-infix tests), and the
scheduling epochs. Filters are single characters of a small alphabet. -/
structure Observation where
  RA : ℚ
  dec : ℚ
  filt : Char
  exptime : ℚ
  nexp : ℚ
  note : List Char
  mjd : ℚ
  flush_by_mjd : ℚ
  field_id : ℚ
deriving DecidableEq

/-- Modelled from the spec: `empty_observation()` (in `utils`, not under
`src/`) produces a zero-filled record; `_slice2obs` copies only the keys
`RA, dec, filter, exptime, nexp, note, field_id` onto it, so `mjd` and
`flush_by_mjd` of the produced observation are the zero defaults. -/
def emptyObservation : Observation :=
  { RA := 0, dec := 0, filt := ' ', exptime := 0, nexp := 0, note := [],
    mjd := 0, flush_by_mjd := 0, field_id := 0 }

/-- Decides whether `pat` is a prefix of `s` (character-wise). -/
def isSubAt : List Char → List Char → Bool
  | [], _ => true
  | _ :: _, [] => false
  | a :: ps, b :: ss => a == b && isSubAt ps ss

/-- Decides whether `pat` occurs contiguously inside `s`: the embedding of
the Python substring test `pat in s` used on the `note` annotation. -/
def containsSub (pat : List Char) : List Char → Bool
  | [] => pat.isEmpty
  | b :: rest => isSubAt pat (b :: rest) || containsSub pat rest

/-- Absolute value on rationals (`np.abs`), written as an explicit
conditional so concrete evaluation reduces in the kernel. -/
def ratAbs (x : ℚ) : ℚ := if x < 0 then -x else x

/-- The healpy `UNSEEN` sentinel value `-1.6375e30` marking no-data pixels. -/
def unseenVal : ℚ := -(16375 : ℚ) / 10000 * 10 ^ 30

/-- Modelled from the spec: the SkyGrid resampling primitive (healpy
`ud_grade`, an external collaborator): it resamples a per-pixel field to
resolution `nside`, and its output always has the canonical
`12 * nside ^ 2` pixel count. Resampling is modelled by nearest-index
selection; only the pixel-count contract matters to the claims. -/
def udGrade (m : List ℚ) (nside : Nat) : List ℚ :=
  (List.range (12 * nside ^ 2)).map (fun i => m.getD (i * m.length / (12 * nside ^ 2)) 0)

/-- Updates one key of a per-filter dict (Python `d[key] = value`). -/
def dictSet (k : Char) (v : List ℚ) : List (Char × List ℚ) → List (Char × List ℚ)
  | [] => [(k, v)]
  | (k', v') :: rest => if k = k' then (k, v) :: rest else (k', v') :: dictSet k v rest

/-- The telemetry snapshot (`Conditions`): raw fields plus lazily-cached
derived fields, each cache an `Option` that is `none` when invalidated.
Per-filter maps (`_skybrightness`, `_FWHMeff`, `_M5Depth`) are assoc
lists keyed by filter character; per-pixel limiting-magnitude values are
`Option ℚ` with `none` for masked pixels. Scalar telemetry not touched
by any claim (moon, sun, twilight, pointing) is omitted. -/
structure Conditions where
  nside : Nat
  exptime : ℚ
  lat : ℚ
  lon : ℚ
  ra : List ℚ
  dec : List ℚ
  _mjd : Option ℚ
  _lmst : Option ℚ
  _alt : Option (List ℚ)
  _az : Option (List ℚ)
  _HA : Option (List ℚ)
  _skybrightness : List (Char × List ℚ)
  _FWHMeff : List (Char × List ℚ)
  _M5Depth : Option (List (Char × List (Option ℚ)))
  _airmass : Option (List ℚ)
  _slewtime : Option (List ℚ)
  _bulk_cloud : Option (List ℚ)
deriving DecidableEq

/-- `Conditions.__init__`: grid coordinates from `_hpid2RaDec`, every
telemetry field unset. -/
def Conditions.init (prim : Primitives) (nside : Nat) (latitude longitude : ℚ)
    (exptime : ℚ) : Conditions :=
  { nside := nside, exptime := exptime, lat := latitude, lon := longitude,
    ra := (List.range (12 * nside ^ 2)).map (fun i => (prim.hpid2RaDec nside i).1),
    dec := (List.range (12 * nside ^ 2)).map (fun i => (prim.hpid2RaDec nside i).2),
    _mjd := none, _lmst := none, _alt := none, _az := none, _HA := none,
    _skybrightness := [], _FWHMeff := [], _M5Depth := none,
    _airmass := none, _slewtime := none, _bulk_cloud := none }

/-- `mjd` setter: stores the time and invalidates the cached alt/az. -/
def Conditions.set_mjd (v : ℚ) (c : Conditions) : Conditions :=
  { c with _mjd := some v, _az := none, _alt := none }

/-- `lmst` setter: stores the sidereal time and invalidates the cached HA. -/
def Conditions.set_lmst (v : ℚ) (c : Conditions) : Conditions :=
  { c with _lmst := some v, _HA := none }

/-- `bulk_cloud` setter: resamples to the canonical resolution. -/
def Conditions.set_bulk_cloud (v : List ℚ) (c : Conditions) : Conditions :=
  { c with _bulk_cloud := some (udGrade v c.nside) }

/-- `slewtime` setter: resamples to the canonical resolution. -/
def Conditions.set_slewtime (v : List ℚ) (c : Conditions) : Conditions :=
  { c with _slewtime := some (udGrade v c.nside) }

/-- `airmass` setter: resamples and invalidates the cached M5 depth. -/
def Conditions.set_airmass (v : List ℚ) (c : Conditions) : Conditions :=
  { c with _airmass := some (udGrade v c.nside), _M5Depth := none }

/-- `skybrightness` setter: resamples each supplied per-filter map and
invalidates the cached M5 depth. -/
def Conditions.set_skybrightness (d : List (Char × List ℚ)) (c : Conditions) : Conditions :=
  { c with
    _skybrightness := d.foldl (fun m kv => dictSet kv.1 (udGrade kv.2 c.nside) m) c._skybrightness,
    _M5Depth := none }

/-- `FWHMeff` setter: stores each supplied per-filter map as given (the
source performs no resampling here) and invalidates the cached M5 depth. -/
def Conditions.set_FWHMeff (d : List (Char × List ℚ)) (c : Conditions) : Conditions :=
  { c with
    _FWHMeff := d.foldl (fun m kv => dictSet kv.1 kv.2 m) c._FWHMeff,
    _M5Depth := none }

/-- `calc_HA`: `radians(lmst*360/24) - ra`, shifting negatives by `2π`;
`none` when `lmst` is unset (the source would raise on `None`). -/
def Conditions.calc_HA (prim : Primitives) (c : Conditions) : Option (List ℚ) :=
  c._lmst.map (fun l => c.ra.map (fun r =>
    let h := prim.radians (l * 360 / 24) - r
    if h < 0 then h + prim.twoPi else h))

/-- `calc_altAz`: the external alt/az transform applied to the grid at the
current time; `none` when `mjd` is unset. -/
def Conditions.calc_altAz (prim : Primitives) (c : Conditions) :
    Option (List ℚ × List ℚ) :=
  c._mjd.map (fun m =>
    let pairs := (c.ra.zip c.dec).map (fun rd => prim.approxRaDec2AltAz rd.1 rd.2 c.lat c.lon m)
    (pairs.map Prod.fst, pairs.map Prod.snd))

/-- `calc_M5Depth`: per filter with sky brightness present, the limiting
magnitude is `m5_flat_sed` at every pixel whose sky brightness differs
from the `UNSEEN` sentinel, and a masked value (`none`) at `UNSEEN`
pixels; the whole computation is `none` (the source raises) when airmass
is unset or a filter lacks an `FWHMeff` entry. -/
def Conditions.calc_M5Depth (prim : Primitives) (c : Conditions) :
    Option (List (Char × List (Option ℚ))) :=
  c._airmass.bind (fun am =>
    c._skybrightness.mapM (fun fs =>
      (c._FWHMeff.lookup fs.1).map (fun fw =>
        (fs.1, (List.range (12 * c.nside ^ 2)).map (fun i =>
          if fs.2.getD i unseenVal = unseenVal then none
          else some (prim.m5FlatSed fs.1 (fs.2.getD i 0) (fw.getD i 0) c.exptime (am.getD i 0)))))))

/-- `HA` getter: returns the cache when filled, otherwise computes and
caches (`calc_HA`), threading the updated snapshot. -/
def Conditions.get_HA (prim : Primitives) (c : Conditions) :
    Option (List ℚ) × Conditions :=
  match c._HA with
  | some h => (some h, c)
  | none =>
    match Conditions.calc_HA prim c with
    | some h => (some h, { c with _HA := some h })
    | none => (none, c)

/-- `alt` getter: returns the cache when filled, otherwise computes
`calc_altAz` and caches both alt and az. -/
def Conditions.get_alt (prim : Primitives) (c : Conditions) :
    Option (List ℚ) × Conditions :=
  match c._alt with
  | some a => (some a, c)
  | none =>
    match Conditions.calc_altAz prim c with
    | some p => (some p.1, { c with _alt := some p.1, _az := some p.2 })
    | none => (none, c)

/-- `az` getter: returns the cache when filled, otherwise computes
`calc_altAz` and caches both alt and az. -/
def Conditions.get_az (prim : Primitives) (c : Conditions) :
    Option (List ℚ) × Conditions :=
  match c._az with
  | some a => (some a, c)
  | none =>
    match Conditions.calc_altAz prim c with
    | some p => (some p.2, { c with _alt := some p.1, _az := some p.2 })
    | none => (none, c)

/-- `M5Depth` getter: returns the cache when filled, otherwise computes
`calc_M5Depth` and caches it. -/
def Conditions.get_M5Depth (prim : Primitives) (c : Conditions) :
    Option (List (Char × List (Option ℚ))) × Conditions :=
  match c._M5Depth with
  | some d => (some d, c)
  | none =>
    match Conditions.calc_M5Depth prim c with
    | some d => (some d, { c with _M5Depth := some d })
    | none => (none, c)

/-- Reward value of a survey for one cycle: a finite value or the
`-np.inf` infeasibility sentinel. -/
inductive Reward where
  | negInf : Reward
  | val : ℚ → Reward
deriving DecidableEq

/-- Python exceptions surfaced by the embedded code paths. -/
inductive PyErr where
  | typeError : PyErr
  | keyError : PyErr
deriving DecidableEq

/-- The view of `Conditions` consumed read-only by the survey methods:
`mjd`, `lmst`, the per-filter per-pixel limiting magnitude (`none` for
masked pixels), the per-pixel slew-time map, and the filter state. By
the cache-stability theorems these getter values are pure functions of
the raw snapshot for the duration of a cycle. -/
structure SurveyConditions where
  mjd : ℚ
  lmst : ℚ
  M5Depth : Char → Nat → Option ℚ
  slewtime : Nat → ℚ
  current_filter : Option Char
  mounted_filters : List Char

/-- State of a `Scripted_survey`: the wanted script, the parallel
observed-log, the day-valued time tolerance, and the constructor
parameters used by matching and selection. `extra_features` is the
string-keyed feature dict; `_check_alts` looks up the key `altaz`
expecting a per-healpixel altitude map. -/
structure ScriptedState where
  obs_wanted : List Observation
  obs_log : List Bool
  mjd_tol : ℚ
  reward_val : ℚ
  ignore_obs : List Char
  min_alt : ℚ
  max_alt : ℚ
  nside : Nat
  extra_features : List (String × (Nat → ℚ))
  reward_checked : Bool

/-- `Scripted_survey.set_script`: converts the minute tolerance to days,
installs the script, and zeroes the observed-log. -/
def Scripted_survey.set_script (wanted : List Observation) (mjd_tol_min : ℚ)
    (s : ScriptedState) : ScriptedState :=
  { s with mjd_tol := mjd_tol_min / 60 / 24, obs_wanted := wanted,
           obs_log := List.replicate wanted.length false }

/-- Marks the first script entry that is inside the strict time window,
not yet logged, and equal to the incoming observation in RA, dec and
filter. This is the loop of `Scripted_survey.add_observation`: the
source first restricts to time-window matches and then takes the first
coordinate/filter match among them, which (order being preserved by the
restriction) is the first index satisfying the whole conjunction. -/
def markFirstMatch (tol : ℚ) (o : Observation) :
    List Observation → List Bool → List Bool
  | _, [] => []
  | [], bs => bs
  | w :: ws, b :: bs =>
    if ratAbs (w.mjd - o.mjd) < tol ∧ b = false ∧ w.RA = o.RA ∧ w.dec = o.dec ∧ w.filt = o.filt
    then true :: bs
    else b :: markFirstMatch tol o ws bs

/-- `Scripted_survey.add_observation`: ignored when the survey's ignore
tag occurs in the annotation; otherwise marks at most one matching
script entry as observed. -/
def Scripted_survey.add_observation (s : ScriptedState) (o : Observation) : ScriptedState :=
  if containsSub s.ignore_obs o.note then s
  else { s with
         reward_checked := false
         obs_log := markFirstMatch s.mjd_tol o s.obs_wanted s.obs_log }

/-- `Scripted_survey._slice2obs`: copies the listed keys onto a fresh
`empty_observation()` row (so `mjd` and `flush_by_mjd` reset to zero). -/
def Scripted_survey._slice2obs (o : Observation) : Observation :=
  { emptyObservation with
    RA := o.RA
    dec := o.dec
    filt := o.filt
    exptime := o.exptime
    nexp := o.nexp
    note := o.note
    field_id := o.field_id }

/-- `Scripted_survey._check_alts`: reads the altitude map out of
`extra_features` at key `altaz` — raising `KeyError` when absent, as it
always is, since nothing in the repository ever installs that key — and
keeps the indices whose altitude lies strictly inside `(min_alt, max_alt)`. -/
def Scripted_survey._check_alts (prim : Primitives) (s : ScriptedState)
    (idxs : List Nat) : Except PyErr (List Nat) :=
  match s.extra_features.lookup ("altaz") with
  | none => .error .keyError
  | some altMap =>
    .ok (idxs.filter (fun i =>
      let w := s.obs_wanted.getD i emptyObservation
      let alt := altMap (prim.raDec2Hpid s.nside w.RA w.dec)
      decide (alt < s.max_alt) && decide (alt > s.min_alt)))

/-- `Scripted_survey._check_list`: indices within the strict time window
and not yet logged, trimmed by the altitude check, and the first
survivor converted through `_slice2obs`. -/
def Scripted_survey._check_list (prim : Primitives) (s : ScriptedState)
    (c : SurveyConditions) : Except PyErr (Option Observation) :=
  let timeMatches := (List.range s.obs_wanted.length).filter (fun i =>
    decide (ratAbs ((s.obs_wanted.getD i emptyObservation).mjd - c.mjd) < s.mjd_tol) &&
    !(s.obs_log.getD i false))
  match Scripted_survey._check_alts prim s timeMatches with
  | .error e => .error e
  | .ok alive =>
    match alive with
    | [] => .ok none
    | i :: _ => .ok (some (Scripted_survey._slice2obs (s.obs_wanted.getD i emptyObservation)))

/-- The call `self._check_list()` as written in
`Scripted_survey.calc_reward_function`: `_check_list(self, conditions)`
requires a `conditions` argument and none is supplied, so the call
raises `TypeError` before the callee body runs. The absent argument is
the `none` case. -/
def Scripted_survey.callCheckListNoArg (prim : Primitives) (s : ScriptedState) :
    Option SurveyConditions → Except PyErr (Option Observation)
  | none => .error .typeError
  | some c => Scripted_survey._check_list prim s c

/-- `Scripted_survey.calc_reward_function`: intended to report the
configured reward when `_check_list` yields an observation and `-inf`
otherwise, but the source invokes `self._check_list()` without the
required `conditions` argument. -/
def Scripted_survey.calc_reward_function (prim : Primitives) (s : ScriptedState)
    (_c : SurveyConditions) : Except PyErr Reward :=
  (Scripted_survey.callCheckListNoArg prim s none).map (fun obs =>
    match obs with
    | none => Reward.negInf
    | some _ => Reward.val s.reward_val)

/-- Per-queue parameters of `Pairs_survey_scripted` (angles stored in
radians as produced by the constructor, `ttol` and `dt` in days,
`max_slew_to_pair` in seconds). -/
structure PairsParams where
  nside : Nat
  filt_to_pair : List Char
  dt : ℚ
  ttol : ℚ
  reward_val : ℚ
  note : List Char
  ignore_obs : List (List Char)
  min_alt : ℚ
  max_alt : ℚ
  lat : ℚ
  max_slew_to_pair : ℚ

/-- `Pairs_survey_scripted._check_mask`: reads the limiting magnitude at
the candidate's healpixel for its filter; good to observe exactly when
the value is present and strictly positive (a masked value compares as
false in the source, and so does any non-positive numeric depth). -/
def Pairs_survey_scripted._check_mask (prim : Primitives) (p : PairsParams)
    (o : Observation) (c : SurveyConditions) : Bool :=
  let hpid := prim.raDec2Hpid p.nside o.RA o.dec
  match c.M5Depth o.filt hpid with
  | some v => decide (v > 0)
  | none => false

/-- `Pairs_survey_scripted._check_alts`: fast alt/az conversion at the
candidate position using the snapshot's `lmst`; true when the altitude
is strictly inside the configured band. -/
def Pairs_survey_scripted._check_alts (prim : Primitives) (p : PairsParams)
    (o : Observation) (c : SurveyConditions) : Bool :=
  let alt := (prim.approxRaDec2AltAzLmst o.RA o.dec p.lat c.mjd c.lmst).1
  decide (alt < p.max_alt) && decide (alt > p.min_alt)

/-- Stale test applied at each step of the purge loop: the window flag
`inW` is the one computed once at loop entry from the initial head
entry; a queue entry is dropped when it is past due with the window
closed, or the window is open but the entry is sky-masked, or the
window is open but the entry is outside the altitude band. -/
def purgeStale (prim : Primitives) (p : PairsParams) (c : SurveyConditions)
    (inW : Bool) (o : Observation) : Bool :=
  (decide (o.mjd < c.mjd) && !inW) ||
  (inW && !Pairs_survey_scripted._check_mask prim p o c) ||
  (inW && !Pairs_survey_scripted._check_alts prim p o c)

/-- The while-loop of `_purge_queue`: deletes head entries while they are
stale (under the single window flag `inW`) and stops at the first
survivor or when the queue empties. -/
def purgeLoop (prim : Primitives) (p : PairsParams) (c : SurveyConditions)
    (inW : Bool) : List Observation → List Observation
  | [] => []
  | o :: rest =>
    if purgeStale prim p c inW o then purgeLoop prim p c inW rest
    else o :: rest

/-- `Pairs_survey_scripted._purge_queue`: on a non-empty queue, computes
the window flag once from the head entry (`|queue[0].mjd - mjd| < ttol`)
and runs the deletion loop with that fixed flag. -/
def Pairs_survey_scripted._purge_queue (prim : Primitives) (p : PairsParams)
    (c : SurveyConditions) : List Observation → List Observation
  | [] => []
  | o :: rest =>
    purgeLoop prim p c (decide (ratAbs (o.mjd - c.mjd) < p.ttol)) (o :: rest)

/-- Result tuple of `Pairs_survey_scripted._check_observation`. -/
structure ObsCheck where
  valid : Bool
  in_time_window : Bool
  infilt : Bool
  in_slew_window : Bool
  is_observable : Bool
deriving DecidableEq

/-- `Pairs_survey_scripted._check_observation`: the slew window holds
when the slew time is within the maximum or the entry is already due
(`delta < 0`); the time window is the strict tolerance test; the filter
test passes when no filter is loaded or the loaded one is in the pair
set; validity is the conjunction of all four flags. -/
def Pairs_survey_scripted._check_observation (prim : Primitives) (p : PairsParams)
    (o : Observation) (c : SurveyConditions) : ObsCheck :=
  let delta := o.mjd - c.mjd
  let slew := c.slewtime (prim.raDec2Hpid p.nside o.RA o.dec)
  let inSlew := decide (slew ≤ p.max_slew_to_pair) || decide (delta < 0)
  let inTime := decide (ratAbs delta < p.ttol)
  let infilt := match c.current_filter with
    | none => true
    | some f => decide (f ∈ p.filt_to_pair)
  let observable := Pairs_survey_scripted._check_mask prim p o c
  { valid := inTime && infilt && inSlew && observable,
    in_time_window := inTime, infilt := infilt,
    in_slew_window := inSlew, is_observable := observable }

/-- The scan of `Pairs_survey_scripted.calc_reward_function` over the
purged queue: the configured reward at the first valid entry, `-inf`
when an entry fails the time window (chronological early exit) or the
queue is exhausted. -/
def pairsRewardScan (prim : Primitives) (p : PairsParams) (c : SurveyConditions) :
    List Observation → Reward
  | [] => .negInf
  | o :: rest =>
    let ch := Pairs_survey_scripted._check_observation prim p o c
    if ch.valid then .val p.reward_val
    else if !ch.in_time_window then .negInf
    else pairsRewardScan prim p c rest

/-- `Pairs_survey_scripted.calc_reward_function`: purges the queue, then
scans it; returns the reward together with the purged queue (the
source's mutation of `observing_queue`). -/
def Pairs_survey_scripted.calc_reward_function (prim : Primitives) (p : PairsParams)
    (c : SurveyConditions) (queue : List Observation) : Reward × List Observation :=
  let q := Pairs_survey_scripted._purge_queue prim p c queue
  (pairsRewardScan prim p c q, q)

/-- The annotation stamped on a generated pair: `pair(<note>)`. -/
def pairNote (n : List Char) : List Char :=
  "pair(".toList ++ n ++ ")".toList

/-- The first valid entry, retagged as a pair and with its filter forced
to the loaded filter when one is loaded. -/
def pairOverride (p : PairsParams) (c : SurveyConditions) (o : Observation) : Observation :=
  { o with note := pairNote p.note,
           filt := match c.current_filter with
                   | some f => f
                   | none => o.filt }

/-- The scan of `Pairs_survey_scripted.generate_observations` over the
purged queue: pops the first valid entry (returning it retagged and the
queue without it), stopping empty-handed at the first entry that fails
the time window. -/
def pairsGenScan (prim : Primitives) (p : PairsParams) (c : SurveyConditions) :
    List Observation → List Observation × List Observation
  | [] => ([], [])
  | o :: rest =>
    let ch := Pairs_survey_scripted._check_observation prim p o c
    if ch.valid then ([pairOverride p c o], rest)
    else if !ch.in_time_window then ([], o :: rest)
    else
      let pr := pairsGenScan prim p c rest
      (pr.1, o :: pr.2)

/-- `Pairs_survey_scripted.generate_observations`: purge then scan,
returning the generated singleton (or nothing) and the remaining queue. -/
def Pairs_survey_scripted.generate_observations (prim : Primitives) (p : PairsParams)
    (c : SurveyConditions) (queue : List Observation) :
    List Observation × List Observation :=
  let q := Pairs_survey_scripted._purge_queue prim p c queue
  pairsGenScan prim p c q

/-- State held by `Pairs_survey_scripted.add_observation`: the queue and
the per-pixel same-night pairing counter. Modelled from the spec: the
`Pair_in_night` feature class is not under `src/`; `pair_map` holds its
per-pixel counter value as read at check time (the source updates the
feature and then reads `np.max(feature[indx])`). -/
structure PairsState where
  queue : List Observation
  pair_map : Nat → ℚ

/-- `Pairs_survey_scripted.add_observation`: skips observations whose
annotation contains any ignore tag; otherwise, when the filter is in the
pair set and the pairing counter maximum over the supplied pixel indices
is below one, appends one clone of the observation with its target epoch
shifted by the configured gap. -/
def Pairs_survey_scripted.add_observation (p : PairsParams) (s : PairsState)
    (o : Observation) (indx : List Nat) : PairsState :=
  if p.ignore_obs.any (fun ig => containsSub ig o.note) then s
  else
    if decide (o.filt ∈ p.filt_to_pair) &&
       (match (indx.map s.pair_map).max? with
        | some v => decide (v < 1)
        | none => false)
    then { s with queue := s.queue ++ [{ o with mjd := o.mjd + p.dt }] }
    else s

/-- State of a `Deep_drilling_survey` after construction: the stored
batch (sorted by filter in the constructor), the precomputed sequence
duration and grace pad (days), the optional fixed reward, and the
feasibility basis functions. -/
structure DDState where
  observations : List Observation
  approx_time : ℚ
  flush_pad : ℚ
  reward_value : Option ℚ
  basis_functions : List (SurveyConditions → Bool)

/-- Insertion of an observation into a filter-sorted list (stable). -/
def insertByFilter (o : Observation) : List Observation → List Observation
  | [] => [o]
  | x :: xs => if o.filt < x.filt then o :: x :: xs else x :: insertByFilter o xs

/-- The constructor's `argsort` on the filter column, as a stable sort by
filter character (rows sharing a filter are identical in the string
branch, so stability is immaterial there). -/
def sortByFilter : List Observation → List Observation
  | [] => []
  | x :: xs => insertByFilter x (sortByFilter xs)

/-- The batch-building loop of `Deep_drilling_survey.__init__` for a
string sequence: `zip(nvis, sequence)` — silently truncating to the
shorter of the two lists — with `num` copies of a fresh observation per
pair. -/
def ddBuildObservations (sequence : List Char) (nvis : List Nat) (exptime : ℚ)
    (ra dec : ℚ) (nexp : ℚ) (survey_name : List Char) : List Observation :=
  (nvis.zip sequence).flatMap (fun nf =>
    List.replicate nf.1
      { RA := ra, dec := dec, filt := nf.2, exptime := exptime, nexp := nexp,
        note := survey_name, mjd := 0, flush_by_mjd := 0, field_id := 0 })

/-- `Deep_drilling_survey.__init__` (string-sequence branch): builds the
batch via `zip`, fails only through `np.concatenate` on an empty batch
(a generic message, not a configuration check), sorts by filter, and
precomputes the sequence duration from exposure, readout and
filter-change times. No validation relates `len(nvis)` to
`len(sequence)`. -/
def Deep_drilling_survey.init (prim : Primitives) (bfs : List (SurveyConditions → Bool))
    (RA dec : ℚ) (sequence : List Char) (nvis : List Nat) (exptime : ℚ) (nexp : ℚ)
    (survey_name : List Char) (reward_value : Option ℚ) (readtime : ℚ)
    (filter_change_time : ℚ) (flush_pad : ℚ) : Except String DDState :=
  let obsList := ddBuildObservations sequence nvis exptime
    (prim.radians RA) (prim.radians dec) nexp survey_name
  if obsList = [] then
    .error ("need at least one array to concatenate")
  else
    let sorted := sortByFilter obsList
    let nChange : ℚ := ((sorted.map (fun o => o.filt)).dedup.length : ℚ)
    .ok { observations := sorted,
          approx_time := (sorted.map (fun o => o.exptime + readtime * o.nexp)).sum / 3600 / 24
                         + filter_change_time * nChange / 3600 / 24,
          flush_pad := flush_pad / 60 / 24,
          reward_value := reward_value,
          basis_functions := bfs }

/-- Modelled from the spec: `BaseSurvey._check_feasibility` (the base
class is not under `src/`) evaluates the chain of feasibility basis
functions; any predicate returning false marks the survey infeasible. -/
def Deep_drilling_survey._check_feasibility (s : DDState) (c : SurveyConditions) : Bool :=
  s.basis_functions.all (fun b => b c)

/-- Whether a batch entry's filter matches the currently loaded filter
(elementwise `result['filter'] == conditions.current_filter`; everywhere
false when no filter is loaded). -/
def ddMatchesCurrent (c : SurveyConditions) (o : Observation) : Bool :=
  decide (c.current_filter = some o.filt)

/-- `Deep_drilling_survey.generate_observations_rough`: when feasible,
clones the batch, stamps every entry's expiry epoch with
`mjd + approx_time + flush_pad`, keeps only entries whose filter is
mounted, and reorders the survivors so entries matching the loaded
filter come first (each side in stored order); infeasible yields `[]`. -/
def Deep_drilling_survey.generate_observations_rough (s : DDState)
    (c : SurveyConditions) : List Observation :=
  if Deep_drilling_survey._check_feasibility s c then
    let stamped := s.observations.map (fun o =>
      { o with flush_by_mjd := c.mjd + s.approx_time + s.flush_pad })
    let mounted := stamped.filter (fun o => decide (o.filt ∈ c.mounted_filters))
    mounted.filter (fun o => ddMatchesCurrent c o) ++
      mounted.filter (fun o => !ddMatchesCurrent c o)
  else []

/-- Lookup after a dict update returns the freshly stored value. -/
theorem dictSet_lookup (k : Char) (v : List ℚ) (m : List (Char × List ℚ)) :
    (dictSet k v m).lookup k = some v := by
  induction m with
  | nil => simp [dictSet]
  | cons x xs ih =>
    obtain ⟨k', v'⟩ := x
    by_cases h : k = k'
    · subst h
      simp [dictSet]
    · have hb : (k == k') = false := beq_eq_false_iff_ne.mpr h
      simp [dictSet, List.lookup, h, hb, ih]

/-- The resampling model always yields the canonical pixel count. -/
theorem udGrade_length (m : List ℚ) (nside : Nat) :
    (udGrade m nside).length = 12 * nside ^ 2 := by
  simp [udGrade]

/-- A read of `HA` with the cache invalidated recomputes from raw state. -/
theorem get_HA_fst_of_none (prim : Primitives) (c : Conditions) (hc : c._HA = none) :
    (Conditions.get_HA prim c).1 = Conditions.calc_HA prim c := by
  cases h : Conditions.calc_HA prim c <;> simp [Conditions.get_HA, hc, h]

/-- A read of `alt` with the cache invalidated recomputes from raw state. -/
theorem get_alt_fst_of_none (prim : Primitives) (c : Conditions) (hc : c._alt = none) :
    (Conditions.get_alt prim c).1 = (Conditions.calc_altAz prim c).map Prod.fst := by
  cases h : Conditions.calc_altAz prim c <;> simp [Conditions.get_alt, hc, h]

/-- A read of `az` with the cache invalidated recomputes from raw state. -/
theorem get_az_fst_of_none (prim : Primitives) (c : Conditions) (hc : c._az = none) :
    (Conditions.get_az prim c).1 = (Conditions.calc_altAz prim c).map Prod.snd := by
  cases h : Conditions.calc_altAz prim c <;> simp [Conditions.get_az, hc, h]

/-- A read of `M5Depth` with the cache invalidated recomputes from raw state. -/
theorem get_M5Depth_fst_of_none (prim : Primitives) (c : Conditions) (hc : c._M5Depth = none) :
    (Conditions.get_M5Depth prim c).1 = Conditions.calc_M5Depth prim c := by
  cases h : Conditions.calc_M5Depth prim c <;> simp [Conditions.get_M5Depth, hc, h]

/-- Repeated reads of `HA` without an intervening dependency write agree. -/
theorem get_HA_stable (prim : Primitives) (c : Conditions) :
    (Conditions.get_HA prim (Conditions.get_HA prim c).2).1 = (Conditions.get_HA prim c).1 := by
  cases hc : c._HA with
  | some a => simp [Conditions.get_HA, hc]
  | none =>
    cases h : Conditions.calc_HA prim c with
    | some a => simp [Conditions.get_HA, hc, h]
    | none => simp [Conditions.get_HA, hc, h]

/-- Repeated reads of `alt` without an intervening dependency write agree. -/
theorem get_alt_stable (prim : Primitives) (c : Conditions) :
    (Conditions.get_alt prim (Conditions.get_alt prim c).2).1 = (Conditions.get_alt prim c).1 := by
  cases hc : c._alt with
  | some a => simp [Conditions.get_alt, hc]
  | none =>
    cases h : Conditions.calc_altAz prim c with
    | some a => simp [Conditions.get_alt, hc, h]
    | none => simp [Conditions.get_alt, hc, h]

/-- Repeated reads of `az` without an intervening dependency write agree. -/
theorem get_az_stable (prim : Primitives) (c : Conditions) :
    (Conditions.get_az prim (Conditions.get_az prim c).2).1 = (Conditions.get_az prim c).1 := by
  cases hc : c._az with
  | some a => simp [Conditions.get_az, hc]
  | none =>
    cases h : Conditions.calc_altAz prim c with
    | some a => simp [Conditions.get_az, hc, h]
    | none => simp [Conditions.get_az, hc, h]

/-- Repeated reads of `M5Depth` without an intervening dependency write agree. -/
theorem get_M5Depth_stable (prim : Primitives) (c : Conditions) :
    (Conditions.get_M5Depth prim (Conditions.get_M5Depth prim c).2).1 =
      (Conditions.get_M5Depth prim c).1 := by
  cases hc : c._M5Depth with
  | some a => simp [Conditions.get_M5Depth, hc]
  | none =>
    cases h : Conditions.calc_M5Depth prim c with
    | some a => simp [Conditions.get_M5Depth, hc, h]
    | none => simp [Conditions.get_M5Depth, hc, h]

/-- A trivial instantiation of the external collaborators, used to
evaluate the embedding on concrete inputs. -/
def primTriv : Primitives :=
  { radians := fun x => x, twoPi := 628 / 100,
    approxRaDec2AltAz := fun _ _ _ _ _ => (1, 0),
    approxRaDec2AltAzLmst := fun _ _ _ _ _ => (1, 0),
    raDec2Hpid := fun _ _ _ => 0,
    hpid2RaDec := fun _ _ => (0, 0),
    m5FlatSed := fun _ _ _ _ _ => 24 }

/-- C3: for every `Conditions` snapshot, setting the time and local
sidereal time leaves the cached altitude, azimuth and hour-angle fields
invalidated, and setting sky brightness, seeing or airmass leaves the
cached limiting-magnitude field invalidated; the next read of each
derived field recomputes it from the new raw inputs, and reading the
same derived field again without an intervening dependency write
returns an identical value. -/
theorem conditions_cache_invalidation (prim : Primitives) (c : Conditions)
    (v l : ℚ) (sb fw : List (Char × List ℚ)) (am : List ℚ) :
    (((c.set_lmst l).set_mjd v)._alt = none ∧
     ((c.set_lmst l).set_mjd v)._az = none ∧
     ((c.set_lmst l).set_mjd v)._HA = none) ∧
    ((c.set_skybrightness sb)._M5Depth = none ∧
     (c.set_FWHMeff fw)._M5Depth = none ∧
     (c.set_airmass am)._M5Depth = none) ∧
    ((Conditions.get_HA prim (c.set_lmst l)).1 = Conditions.calc_HA prim (c.set_lmst l) ∧
     (Conditions.get_alt prim (c.set_mjd v)).1 =
       (Conditions.calc_altAz prim (c.set_mjd v)).map Prod.fst ∧
     (Conditions.get_az prim (c.set_mjd v)).1 =
       (Conditions.calc_altAz prim (c.set_mjd v)).map Prod.snd ∧
     (Conditions.get_M5Depth prim (c.set_airmass am)).1 =
       Conditions.calc_M5Depth prim (c.set_airmass am) ∧
     (Conditions.get_M5Depth prim (c.set_skybrightness sb)).1 =
       Conditions.calc_M5Depth prim (c.set_skybrightness sb) ∧
     (Conditions.get_M5Depth prim (c.set_FWHMeff fw)).1 =
       Conditions.calc_M5Depth prim (c.set_FWHMeff fw)) ∧
    ((Conditions.get_HA prim (Conditions.get_HA prim c).2).1 =
       (Conditions.get_HA prim c).1 ∧
     (Conditions.get_alt prim (Conditions.get_alt prim c).2).1 =
       (Conditions.get_alt prim c).1 ∧
     (Conditions.get_az prim (Conditions.get_az prim c).2).1 =
       (Conditions.get_az prim c).1 ∧
     (Conditions.get_M5Depth prim (Conditions.get_M5Depth prim c).2).1 =
       (Conditions.get_M5Depth prim c).1) :=
  ⟨⟨rfl, rfl, rfl⟩, ⟨rfl, rfl, rfl⟩,
   ⟨get_HA_fst_of_none prim _ rfl, get_alt_fst_of_none prim _ rfl,
    get_az_fst_of_none prim _ rfl, get_M5Depth_fst_of_none prim _ rfl,
    get_M5Depth_fst_of_none prim _ rfl, get_M5Depth_fst_of_none prim _ rfl⟩,
   get_HA_stable prim c, get_alt_stable prim c, get_az_stable prim c,
   get_M5Depth_stable prim c⟩

/-- C5 (amended): every per-pixel raw telemetry field of `Conditions`
except seeing is resampled by its setter, so cloud, slew time, airmass
and sky brightness read back with exactly the canonical grid's pixel
count; the seeing field (`FWHMeff`) is stored at its supplied
resolution unchanged. -/
theorem conditions_resample_amended (c : Conditions) (v w : List ℚ) (k : Char) :
    (c.set_bulk_cloud v)._bulk_cloud.map List.length = some (12 * c.nside ^ 2) ∧
    (c.set_slewtime v)._slewtime.map List.length = some (12 * c.nside ^ 2) ∧
    (c.set_airmass v)._airmass.map List.length = some (12 * c.nside ^ 2) ∧
    (c.set_skybrightness [(k, v)])._skybrightness.lookup k = some (udGrade v c.nside) ∧
    (udGrade v c.nside).length = 12 * c.nside ^ 2 ∧
    (c.set_FWHMeff [(k, w)])._FWHMeff.lookup k = some w := by
  refine ⟨?_, ?_, ?_, ?_, udGrade_length v c.nside, ?_⟩
  · simp [Conditions.set_bulk_cloud, udGrade_length]
  · simp [Conditions.set_slewtime, udGrade_length]
  · simp [Conditions.set_airmass, udGrade_length]
  · simp [Conditions.set_skybrightness, dictSet_lookup]
  · simp [Conditions.set_FWHMeff, dictSet_lookup]

/-- A concrete canonical-resolution snapshot (`nside = 1`, 12 pixels). -/
def condNside1 : Conditions := Conditions.init primTriv 1 0 0 30

/-- C5 counterexample: a seeing (`FWHMeff`) map supplied at a foreign
resolution (48 pixels against a canonical 12) reads back with its
foreign pixel count, so the claim fails for the seeing field. -/
theorem conditions_resample_cex :
    ((condNside1.set_FWHMeff [('r', List.replicate 48 (1 : ℚ))])._FWHMeff.lookup 'r').map
        List.length = some 48 ∧
    (48 : Nat) ≠ 12 * condNside1.nside ^ 2 := by
  constructor
  · simp [condNside1, Conditions.init, Conditions.set_FWHMeff, dictSet_lookup]
  · decide

/-- C4: `Scripted_survey.calc_reward_function` raises on every call —
the source invokes `self._check_list()` without the `conditions`
argument that `_check_list` requires, a `TypeError` (and even with the
argument supplied, `_check_alts` would raise `KeyError`: the
`extra_features` dict of `Scripted_survey` never holds an `altaz` key).
The claim's intended contract (`-inf` when infeasible, the configured
reward otherwise, never raising) is therefore unsatisfiable on the code
as written. -/
theorem scripted_calc_reward_raises (prim : Primitives) (s : ScriptedState)
    (c : SurveyConditions) :
    Scripted_survey.calc_reward_function prim s c = .error .typeError ∧
    (∀ idxs, s.extra_features.lookup ("altaz") = none →
      Scripted_survey._check_alts prim s idxs = .error .keyError) := by
  constructor
  · rfl
  · intro idxs h
    simp [Scripted_survey._check_alts, h]

/-- A concrete wanted script entry at target epoch 100. -/
def wantedObs : Observation :=
  { RA := 2, dec := 3, filt := 'r', exptime := 30, nexp := 2,
    note := "s".toList, mjd := 100, flush_by_mjd := 0, field_id := 7 }

/-- A concrete scripted-survey state: one wanted entry at epoch 100 with
a 360-minute tolerance (a quarter day), nothing observed yet. -/
def scriptedS0 : ScriptedState :=
  Scripted_survey.set_script [wantedObs] 360
    { obs_wanted := [], obs_log := [], mjd_tol := 0, reward_val := 1000000,
      ignore_obs := "dummy".toList, min_alt := 1 / 2, max_alt := 3 / 2,
      nside := 1, extra_features := [], reward_checked := false }

/-- A concrete telemetry view with everything benign: queue-friendly
time, unmasked sky, short slew, loaded filter `r`. -/
def surveyCondBenign : SurveyConditions :=
  { mjd := 100, lmst := 0, M5Depth := fun _ _ => some 5,
    slewtime := fun _ => 5, current_filter := some 'r',
    mounted_filters := ['r', 'g'] }

/-- C4 witness: the reward call raises `TypeError` at a concrete state
and snapshot, and the altitude check raises `KeyError` on the empty
feature dict. -/
theorem scripted_calc_reward_raises_witness :
    Scripted_survey.calc_reward_function primTriv scriptedS0 surveyCondBenign
        = .error .typeError ∧
    Scripted_survey._check_alts primTriv scriptedS0 [] = .error .keyError :=
  ⟨(scripted_calc_reward_raises primTriv scriptedS0 surveyCondBenign).1,
   (scripted_calc_reward_raises primTriv scriptedS0 surveyCondBenign).2 [] rfl⟩

/-- C10: `_check_mask` reports a candidate unobservable exactly when the
limiting magnitude at its pixel and filter is masked or not strictly
positive: a legitimate numeric non-positive depth is rejected exactly
as the no-data mask is, and a strictly positive depth is accepted. -/
theorem check_mask_nonpositive_as_masked (prim : Primitives) (p : PairsParams)
    (o : Observation) (c : SurveyConditions) :
    (∀ v, c.M5Depth o.filt (prim.raDec2Hpid p.nside o.RA o.dec) = some v → v ≤ 0 →
      Pairs_survey_scripted._check_mask prim p o c = false) ∧
    (c.M5Depth o.filt (prim.raDec2Hpid p.nside o.RA o.dec) = none →
      Pairs_survey_scripted._check_mask prim p o c = false) ∧
    (∀ v, c.M5Depth o.filt (prim.raDec2Hpid p.nside o.RA o.dec) = some v → 0 < v →
      Pairs_survey_scripted._check_mask prim p o c = true) := by
  refine ⟨?_, ?_, ?_⟩
  · intro v hv hle
    simp [Pairs_survey_scripted._check_mask, hv, not_lt.mpr hle]
  · intro hv
    simp [Pairs_survey_scripted._check_mask, hv]
  · intro v hv hpos
    simp [Pairs_survey_scripted._check_mask, hv, hpos]

/-- Concrete pairing parameters: pair filters `griz`, 40-minute gap,
10-minute tolerance, reward 101, 15-second slew budget, altitude band
`(1/2, 3/2)` radians. -/
def pairsP0 : PairsParams :=
  { nside := 1, filt_to_pair := ['g', 'r', 'i', 'z'],
    dt := 40 / 60 / 24, ttol := 10 / 60 / 24, reward_val := 101,
    note := "scripted".toList, ignore_obs := ["ack".toList],
    min_alt := 1 / 2, max_alt := 3 / 2, lat := -1 / 2,
    max_slew_to_pair := 15 }

/-- A queue entry at epoch 100 in filter `g`. -/
def pairObs0 : Observation :=
  { RA := 2, dec := 3, filt := 'g', exptime := 30, nexp := 2,
    note := "s".toList, mjd := 100, flush_by_mjd := 0, field_id := 7 }

/-- A telemetry view whose limiting magnitude carries a numeric zero
(non-positive) depth everywhere. -/
def surveyCondZeroDepth : SurveyConditions :=
  { mjd := 100, lmst := 0, M5Depth := fun _ _ => some 0,
    slewtime := fun _ => 5, current_filter := some 'r',
    mounted_filters := ['r', 'g'] }

/-- A telemetry view whose limiting magnitude is the no-data mask
everywhere. -/
def surveyCondMasked : SurveyConditions :=
  { mjd := 100, lmst := 0, M5Depth := fun _ _ => none,
    slewtime := fun _ => 5, current_filter := some 'r',
    mounted_filters := ['r', 'g'] }

/-- C10 witness: at a concrete candidate, a zero depth and the no-data
mask are both rejected, and a positive depth is accepted. -/
theorem check_mask_nonpositive_as_masked_witness :
    Pairs_survey_scripted._check_mask primTriv pairsP0 pairObs0 surveyCondZeroDepth = false ∧
    Pairs_survey_scripted._check_mask primTriv pairsP0 pairObs0 surveyCondMasked = false ∧
    Pairs_survey_scripted._check_mask primTriv pairsP0 pairObs0 surveyCondBenign = true :=
  ⟨(check_mask_nonpositive_as_masked primTriv pairsP0 pairObs0 surveyCondZeroDepth).1 0 rfl
     le_rfl,
   (check_mask_nonpositive_as_masked primTriv pairsP0 pairObs0 surveyCondMasked).2.1 rfl,
   (check_mask_nonpositive_as_masked primTriv pairsP0 pairObs0 surveyCondBenign).2.2 5 rfl
     (by norm_num)⟩

/-- The purge loop is the `dropWhile` of the stale test under a fixed
window flag. -/
theorem purgeLoop_eq_dropWhile (prim : Primitives) (p : PairsParams)
    (c : SurveyConditions) (inW : Bool) (q : List Observation) :
    purgeLoop prim p c inW q = q.dropWhile (purgeStale prim p c inW) := by
  induction q with
  | nil => rfl
  | cons o rest ih =>
    by_cases h : purgeStale prim p c inW o
    · simp [purgeLoop, List.dropWhile, h, ih]
    · simp [purgeLoop, List.dropWhile, h]

/-- The head surviving a `dropWhile` fails the dropping test. -/
theorem dropWhile_head_false {α : Type} (f : α → Bool) :
    ∀ (l : List α) (hd : α) (tl : List α), l.dropWhile f = hd :: tl → f hd = false := by
  intro l
  induction l with
  | nil =>
    intro hd tl h
    simp [List.dropWhile] at h
  | cons a as ih =>
    intro hd tl h
    simp only [List.dropWhile] at h
    cases hf : f a with
    | true =>
      rw [hf] at h
      exact ih hd tl h
    | false =>
      rw [hf] at h
      injection h with h1 h2
      subst h1
      exact hf

/-- C1 (amended): the purge of the paired-observation queue evaluates
the tolerance window once, against the initial head entry, and reuses
that single flag for every scan step: with `W` the head's window flag,
entries are dropped from the head while past-due-with-`W`-closed, or
`W`-open-but-masked, or `W`-open-but-outside-the-altitude-band, and the
scan stops at the first entry surviving all three checks (whose stale
test is false); the empty queue purges to itself. -/
theorem purge_queue_amended (prim : Primitives) (p : PairsParams)
    (c : SurveyConditions) (o : Observation) (rest : List Observation) :
    Pairs_survey_scripted._purge_queue prim p c (o :: rest) =
      (o :: rest).dropWhile (purgeStale prim p c (decide (ratAbs (o.mjd - c.mjd) < p.ttol))) ∧
    (∀ hd tl,
      Pairs_survey_scripted._purge_queue prim p c (o :: rest) = hd :: tl →
      purgeStale prim p c (decide (ratAbs (o.mjd - c.mjd) < p.ttol)) hd = false) ∧
    Pairs_survey_scripted._purge_queue prim p c [] = [] := by
  refine ⟨purgeLoop_eq_dropWhile prim p c _ _, ?_, rfl⟩
  intro hd tl h
  simp only [Pairs_survey_scripted._purge_queue] at h
  rw [purgeLoop_eq_dropWhile prim p c _ _] at h
  exact dropWhile_head_false _ _ hd tl h

/-- A queue entry whose target epoch is one day in the past (outside its
ten-minute tolerance window). -/
def pastObs : Observation := { pairObs0 with mjd := 99 }

/-- A queue entry due almost now: within its own tolerance window of the
current time 100. -/
def nearObs : Observation := { pairObs0 with mjd := 100 + 1 / 1000 }

/-- C1 witness: on the concrete queue `[pastObs, nearObs]` the purge
equals the amended dropWhile description, and its surviving head fails
the stale test. -/
theorem purge_queue_amended_witness :
    Pairs_survey_scripted._purge_queue primTriv pairsP0 surveyCondBenign [pastObs, nearObs] =
      [pastObs, nearObs].dropWhile
        (purgeStale primTriv pairsP0 surveyCondBenign
          (decide (ratAbs (pastObs.mjd - surveyCondBenign.mjd) < pairsP0.ttol))) ∧
    purgeStale primTriv pairsP0 surveyCondBenign
        (decide (ratAbs (pastObs.mjd - surveyCondBenign.mjd) < pairsP0.ttol)) nearObs = false :=
  ⟨(purge_queue_amended primTriv pairsP0 surveyCondBenign pastObs [nearObs]).1,
   (purge_queue_amended primTriv pairsP0 surveyCondBenign pastObs [nearObs]).2.1
     nearObs [] (by decide)⟩

/-- C1 counterexample: with the head entry stale (epoch in the past,
window closed), the next entry `nearObs` is inside its own tolerance
window and sky-masked (zero depth), so by the claim it should be
dropped; the code retains it because the window flag was computed from
the old head and never recomputed. -/
theorem purge_queue_cex :
    Pairs_survey_scripted._purge_queue primTriv pairsP0 surveyCondZeroDepth
        [pastObs, nearObs] = [nearObs] ∧
    ratAbs (nearObs.mjd - surveyCondZeroDepth.mjd) < pairsP0.ttol ∧
    Pairs_survey_scripted._check_mask primTriv pairsP0 nearObs surveyCondZeroDepth = false := by
  decide

/-- The reward scan yields the configured reward exactly when some queue
entry is valid and every entry before it is invalid but inside the time
window (the chronological early exit). -/
theorem pairsRewardScan_val_iff (prim : Primitives) (p : PairsParams)
    (c : SurveyConditions) :
    ∀ q : List Observation,
    (pairsRewardScan prim p c q = .val p.reward_val ↔
      ∃ i, ∃ hi : i < q.length,
        (Pairs_survey_scripted._check_observation prim p (q.get ⟨i, hi⟩) c).valid = true ∧
        ∀ j (hj : j < i),
          (Pairs_survey_scripted._check_observation prim p (q.get ⟨j, hj.trans hi⟩) c).valid
              = false ∧
          (Pairs_survey_scripted._check_observation prim p
              (q.get ⟨j, hj.trans hi⟩) c).in_time_window = true) := by
  intro q
  induction q with
  | nil => simp [pairsRewardScan]
  | cons o rest ih =>
    by_cases hv : (Pairs_survey_scripted._check_observation prim p o c).valid = true
    · constructor
      · intro _
        exact ⟨0, Nat.succ_pos _, by simpa using hv,
               fun j hj => absurd hj (Nat.not_lt_zero j)⟩
      · intro _
        simp [pairsRewardScan, hv]
    · have hv' : (Pairs_survey_scripted._check_observation prim p o c).valid = false := by
        simpa using hv
      by_cases ht : (Pairs_survey_scripted._check_observation prim p o c).in_time_window = true
      · have hscan : pairsRewardScan prim p c (o :: rest) = pairsRewardScan prim p c rest := by
          simp [pairsRewardScan, hv', ht]
        rw [hscan, ih]
        constructor
        · rintro ⟨i, hi, hvi, hprior⟩
          refine ⟨i + 1, Nat.succ_lt_succ hi, by simpa using hvi, ?_⟩
          intro j hj
          cases j with
          | zero => exact ⟨by simpa using hv', by simpa using ht⟩
          | succ j' =>
            have hj' : j' < i := Nat.lt_of_succ_lt_succ hj
            have := hprior j' hj'
            exact ⟨by simpa using this.1, by simpa using this.2⟩
        · rintro ⟨i, hi, hvi, hprior⟩
          cases i with
          | zero => exact absurd (by simpa using hvi) hv
          | succ i' =>
            refine ⟨i', Nat.lt_of_succ_lt_succ hi, by simpa using hvi, ?_⟩
            intro j hj
            have := hprior (j + 1) (Nat.succ_lt_succ hj)
            exact ⟨by simpa using this.1, by simpa using this.2⟩
      · have ht' : (Pairs_survey_scripted._check_observation prim p o c).in_time_window
            = false := by simpa using ht
        have hscan : pairsRewardScan prim p c (o :: rest) = .negInf := by
          simp [pairsRewardScan, hv', ht']
        rw [hscan]
        constructor
        · intro h
          exact Reward.noConfusion h
        · rintro ⟨i, hi, hvi, hprior⟩
          cases i with
          | zero => exact absurd (by simpa using hvi) hv
          | succ i' =>
            have h0 : (Pairs_survey_scripted._check_observation prim p o c).in_time_window
                = true := by simpa using (hprior 0 (Nat.succ_pos i')).2
            rw [ht'] at h0
            exact Bool.noConfusion h0

/-- The generation scan pops exactly the first valid entry, provided all
entries before it are invalid but inside the time window. -/
theorem pairsGenScan_pops (prim : Primitives) (p : PairsParams) (c : SurveyConditions) :
    ∀ (q : List Observation) (i : Nat) (hi : i < q.length),
    (Pairs_survey_scripted._check_observation prim p (q.get ⟨i, hi⟩) c).valid = true →
    (∀ j (hj : j < i),
      (Pairs_survey_scripted._check_observation prim p (q.get ⟨j, hj.trans hi⟩) c).valid
          = false ∧
      (Pairs_survey_scripted._check_observation prim p
          (q.get ⟨j, hj.trans hi⟩) c).in_time_window = true) →
    pairsGenScan prim p c q = ([pairOverride p c (q.get ⟨i, hi⟩)], q.eraseIdx i) := by
  intro q
  induction q with
  | nil => intro i hi; exact absurd hi (Nat.not_lt_zero i)
  | cons o rest ih =>
    intro i hi hv hprior
    cases i with
    | zero =>
      have hv0 : (Pairs_survey_scripted._check_observation prim p o c).valid = true := by
        simpa using hv
      simp [pairsGenScan, hv0, List.eraseIdx]
    | succ i' =>
      have h0 := hprior 0 (Nat.succ_pos i')
      have hv0 : (Pairs_survey_scripted._check_observation prim p o c).valid = false := by
        simpa using h0.1
      have ht0 : (Pairs_survey_scripted._check_observation prim p o c).in_time_window
          = true := by simpa using h0.2
      have hi' : i' < rest.length := Nat.lt_of_succ_lt_succ hi
      have hrec := ih i' hi' (by simpa using hv) (fun j hj => by
        have := hprior (j + 1) (Nat.succ_lt_succ hj)
        exact ⟨by simpa using this.1, by simpa using this.2⟩)
      simp [pairsGenScan, hv0, ht0, hrec, List.eraseIdx]

/-- C2 (amended): a pairing-queue entry is valid exactly when its time
delta is within tolerance AND (its slew time is within the configured
maximum OR its delta is negative) AND the loaded filter (if any) is in
the pairing filter set AND the position is not sky-masked; the reward
call returns the configured pair reward exactly when the scan of the
purged queue — which stops at the first entry outside its time window —
reaches a valid entry; and generation pops exactly that first valid
entry, retagged as a pair with its filter overridden to the loaded one. -/
theorem pairs_reward_generate_amended (prim : Primitives) (p : PairsParams)
    (c : SurveyConditions) (queue : List Observation) :
    (∀ o : Observation,
      ((Pairs_survey_scripted._check_observation prim p o c).valid = true ↔
        (ratAbs (o.mjd - c.mjd) < p.ttol ∧
         (c.slewtime (prim.raDec2Hpid p.nside o.RA o.dec) ≤ p.max_slew_to_pair ∨
            o.mjd - c.mjd < 0) ∧
         (∀ f, c.current_filter = some f → f ∈ p.filt_to_pair) ∧
         Pairs_survey_scripted._check_mask prim p o c = true))) ∧
    ((Pairs_survey_scripted.calc_reward_function prim p c queue).1 = .val p.reward_val ↔
      ∃ i, ∃ hi : i < (Pairs_survey_scripted._purge_queue prim p c queue).length,
        (Pairs_survey_scripted._check_observation prim p
            ((Pairs_survey_scripted._purge_queue prim p c queue).get ⟨i, hi⟩) c).valid
            = true ∧
        ∀ j (hj : j < i),
          (Pairs_survey_scripted._check_observation prim p
              ((Pairs_survey_scripted._purge_queue prim p c queue).get
                ⟨j, hj.trans hi⟩) c).valid = false ∧
          (Pairs_survey_scripted._check_observation prim p
              ((Pairs_survey_scripted._purge_queue prim p c queue).get
                ⟨j, hj.trans hi⟩) c).in_time_window = true) ∧
    (∀ i (hi : i < (Pairs_survey_scripted._purge_queue prim p c queue).length),
      (Pairs_survey_scripted._check_observation prim p
          ((Pairs_survey_scripted._purge_queue prim p c queue).get ⟨i, hi⟩) c).valid
          = true →
      (∀ j (hj : j < i),
        (Pairs_survey_scripted._check_observation prim p
            ((Pairs_survey_scripted._purge_queue prim p c queue).get
              ⟨j, hj.trans hi⟩) c).valid = false ∧
        (Pairs_survey_scripted._check_observation prim p
            ((Pairs_survey_scripted._purge_queue prim p c queue).get
              ⟨j, hj.trans hi⟩) c).in_time_window = true) →
      Pairs_survey_scripted.generate_observations prim p c queue =
        ([pairOverride p c ((Pairs_survey_scripted._purge_queue prim p c queue).get ⟨i, hi⟩)],
         (Pairs_survey_scripted._purge_queue prim p c queue).eraseIdx i)) := by
  refine ⟨?_, ?_, ?_⟩
  · intro o
    cases hcf : c.current_filter with
    | none =>
      simp [Pairs_survey_scripted._check_observation, hcf, Bool.and_eq_true,
            Bool.or_eq_true, decide_eq_true_eq]
      tauto
    | some f =>
      simp [Pairs_survey_scripted._check_observation, hcf, Bool.and_eq_true,
            Bool.or_eq_true, decide_eq_true_eq]
      tauto
  · exact pairsRewardScan_val_iff prim p c (Pairs_survey_scripted._purge_queue prim p c queue)
  · intro i hi hv hprior
    exact pairsGenScan_pops prim p c
      (Pairs_survey_scripted._purge_queue prim p c queue) i hi hv hprior

/-- A queue entry already due (`delta < 0`), inside tolerance. -/
def dueObs : Observation := { pairObs0 with mjd := 100 - 1 / 1000 }

/-- C2 witness (end-to-end scenario 3): the entry is due now with a
5-second slew against a 15-second budget, compatible loaded filter `r`,
unmasked position: the reward call reports the configured value 101 and
generation pops exactly that entry, retagged, with filter `r`. -/
theorem pairs_reward_generate_amended_witness :
    (Pairs_survey_scripted.calc_reward_function primTriv pairsP0 surveyCondBenign
        [dueObs]).1 = .val pairsP0.reward_val ∧
    Pairs_survey_scripted.generate_observations primTriv pairsP0 surveyCondBenign [dueObs] =
      ([pairOverride pairsP0 surveyCondBenign dueObs], []) := by
  have h := pairs_reward_generate_amended primTriv pairsP0 surveyCondBenign [dueObs]
  constructor
  · exact h.2.1.mpr ⟨0, by decide, by decide, fun j hj => absurd hj (Nat.not_lt_zero j)⟩
  · exact h.2.2 0 (by decide) (by decide) (fun j hj => absurd hj (Nat.not_lt_zero j))

/-- A telemetry view identical to the benign one but with a 20-second
slew everywhere, exceeding the 15-second pairing budget. -/
def slowSlewCond : SurveyConditions :=
  { surveyCondBenign with slewtime := fun _ => 20 }

/-- C2 counterexample: an entry within tolerance (`delta = 0`) with the
loaded filter in the pairing set and the position unmasked — by the
claim the reward must be the configured pair value and generation must
return the entry — yet the slew time 20 exceeds the maximum 15 and the
delta is not negative, so the code reports `-inf` and generates
nothing. -/
theorem pairs_reward_generate_cex :
    ratAbs (pairObs0.mjd - slowSlewCond.mjd) < pairsP0.ttol ∧
    slowSlewCond.current_filter = some 'r' ∧ 'r' ∈ pairsP0.filt_to_pair ∧
    Pairs_survey_scripted._check_mask primTriv pairsP0 pairObs0 slowSlewCond = true ∧
    (Pairs_survey_scripted.calc_reward_function primTriv pairsP0 slowSlewCond
        [pairObs0]).1 = .negInf ∧
    Pairs_survey_scripted.generate_observations primTriv pairsP0 slowSlewCond [pairObs0] =
      ([], [pairObs0]) := by
  decide

/-- The matching condition of `Scripted_survey.add_observation` for a
wanted entry `w` with observed-flag `b` against an executed observation
`o`: strict time window, not yet logged, and exact position/filter
equality. -/
abbrev scriptMatchCond (tol : ℚ) (o w : Observation) (b : Bool) : Prop :=
  ratAbs (w.mjd - o.mjd) < tol ∧ b = false ∧ w.RA = o.RA ∧ w.dec = o.dec ∧ w.filt = o.filt

/-- The value stored at the just-updated index of a list. -/
theorem getD_set_self (l : List Bool) (j : Nat) (hj : j < l.length) (a d : Bool) :
    (l.set j a).getD j d = a := by
  induction l generalizing j with
  | nil => exact absurd hj (Nat.not_lt_zero j)
  | cons x xs ih =>
    cases j with
    | zero => rfl
    | succ j' => exact ih j' (Nat.lt_of_succ_lt_succ hj)

/-- The marking pass either leaves the log unchanged or sets exactly one
index, which satisfies the matching condition and was unmarked. -/
theorem markFirstMatch_cases (tol : ℚ) (o : Observation) :
    ∀ (ws : List Observation) (bs : List Bool),
    markFirstMatch tol o ws bs = bs ∨
    ∃ j, j < ws.length ∧ j < bs.length ∧
      scriptMatchCond tol o (ws.getD j emptyObservation) (bs.getD j false) ∧
      markFirstMatch tol o ws bs = bs.set j true := by
  intro ws
  induction ws with
  | nil =>
    intro bs
    cases bs with
    | nil => exact Or.inl rfl
    | cons b bs' => exact Or.inl rfl
  | cons w ws' ih =>
    intro bs
    cases bs with
    | nil => exact Or.inl rfl
    | cons b bs' =>
      by_cases h : ratAbs (w.mjd - o.mjd) < tol ∧ b = false ∧ w.RA = o.RA ∧ w.dec = o.dec ∧
          w.filt = o.filt
      · refine Or.inr ⟨0, Nat.succ_pos _, Nat.succ_pos _, by simpa using h, ?_⟩
        simp [markFirstMatch, h]
      · rcases ih bs' with heq | ⟨j, hjw, hjb, hcond, heq⟩
        · exact Or.inl (by simp [markFirstMatch, h, heq])
        · refine Or.inr ⟨j + 1, Nat.succ_lt_succ hjw, Nat.succ_lt_succ hjb,
            by simpa using hcond, ?_⟩
          simp [markFirstMatch, h, heq]

/-- When some index satisfies the matching condition, the marking pass
sets exactly one index, itself satisfying the condition. -/
theorem markFirstMatch_finds (tol : ℚ) (o : Observation) :
    ∀ (ws : List Observation) (bs : List Bool) (i : Nat), i < ws.length → i < bs.length →
    scriptMatchCond tol o (ws.getD i emptyObservation) (bs.getD i false) →
    ∃ j, j < ws.length ∧ j < bs.length ∧
      scriptMatchCond tol o (ws.getD j emptyObservation) (bs.getD j false) ∧
      markFirstMatch tol o ws bs = bs.set j true := by
  intro ws
  induction ws with
  | nil => intro bs i hi; exact absurd hi (Nat.not_lt_zero i)
  | cons w ws' ih =>
    intro bs i hiw hib hq
    cases bs with
    | nil => exact absurd hib (Nat.not_lt_zero i)
    | cons b bs' =>
      by_cases h : ratAbs (w.mjd - o.mjd) < tol ∧ b = false ∧ w.RA = o.RA ∧ w.dec = o.dec ∧
          w.filt = o.filt
      · refine ⟨0, Nat.succ_pos _, Nat.succ_pos _, by simpa using h, ?_⟩
        simp [markFirstMatch, h]
      · cases i with
        | zero => exact absurd (by simpa using hq) h
        | succ i' =>
          obtain ⟨j, hjw, hjb, hcond, heq⟩ := ih bs' i' (Nat.lt_of_succ_lt_succ hiw)
            (Nat.lt_of_succ_lt_succ hib) (by simpa using hq)
          refine ⟨j + 1, Nat.succ_lt_succ hjw, Nat.succ_lt_succ hjb,
            by simpa using hcond, ?_⟩
          simp [markFirstMatch, h, heq]

/-- C6 (amended): with an executed observation whose annotation carries
no ignore tag and that matches some unlogged script entry in position
and filter with its epoch strictly inside the open window
`(T - tol, T + tol)`, `add_observation` marks exactly one unlogged
matching entry; a second identical call never re-marks that entry — it
either changes nothing or marks a single different, still-unmarked
index. -/
theorem scripted_add_observation_amended (s : ScriptedState) (o : Observation)
    (hnote : containsSub s.ignore_obs o.note = false)
    (i : Nat) (hw : i < s.obs_wanted.length) (hb : i < s.obs_log.length)
    (hq : scriptMatchCond s.mjd_tol o (s.obs_wanted.getD i emptyObservation)
      (s.obs_log.getD i false)) :
    ∃ j, j < s.obs_wanted.length ∧ j < s.obs_log.length ∧
      scriptMatchCond s.mjd_tol o (s.obs_wanted.getD j emptyObservation)
        (s.obs_log.getD j false) ∧
      (Scripted_survey.add_observation s o).obs_log = s.obs_log.set j true ∧
      ((Scripted_survey.add_observation (Scripted_survey.add_observation s o) o).obs_log
          = s.obs_log.set j true ∨
       ∃ k, k < s.obs_log.length ∧ k ≠ j ∧
         (s.obs_log.set j true).getD k false = false ∧
         (Scripted_survey.add_observation (Scripted_survey.add_observation s o) o).obs_log
             = (s.obs_log.set j true).set k true) := by
  obtain ⟨j, hjw, hjb, hcond, heq⟩ :=
    markFirstMatch_finds s.mjd_tol o s.obs_wanted s.obs_log i hw hb hq
  have hs' : Scripted_survey.add_observation s o =
      { s with reward_checked := false, obs_log := s.obs_log.set j true } := by
    simp [Scripted_survey.add_observation, hnote, heq]
  refine ⟨j, hjw, hjb, hcond, by rw [hs'], ?_⟩
  rw [hs']
  rcases markFirstMatch_cases s.mjd_tol o s.obs_wanted (s.obs_log.set j true) with
    h2 | ⟨k, hkw, hkb, hkcond, h2⟩
  · exact Or.inl (by simp [Scripted_survey.add_observation, hnote, h2])
  · have hkb' : k < s.obs_log.length := by
      rw [List.length_set] at hkb
      exact hkb
    have hne : k ≠ j := by
      intro hkj
      subst hkj
      have htrue : (s.obs_log.set k true).getD k false = true :=
        getD_set_self s.obs_log k hkb' true false
      rw [hkcond.2.1] at htrue
      exact Bool.noConfusion htrue
    exact Or.inr ⟨k, hkb', hne, hkcond.2.1,
      by simp [Scripted_survey.add_observation, hnote, h2]⟩

/-- An executed observation matching `wantedObs` exactly, taken an
eighth of a day after the target epoch — strictly inside the
quarter-day tolerance. -/
def matchObs : Observation := { wantedObs with mjd := 100 + 1 / 8, note := "x".toList }

/-- C6 witness: on the concrete one-entry script, the matching executed
observation marks exactly one entry and a second identical call does
not re-mark it. -/
theorem scripted_add_observation_amended_witness :
    ∃ j, j < scriptedS0.obs_wanted.length ∧ j < scriptedS0.obs_log.length ∧
      scriptMatchCond scriptedS0.mjd_tol matchObs
        (scriptedS0.obs_wanted.getD j emptyObservation)
        (scriptedS0.obs_log.getD j false) ∧
      (Scripted_survey.add_observation scriptedS0 matchObs).obs_log
          = scriptedS0.obs_log.set j true ∧
      ((Scripted_survey.add_observation
          (Scripted_survey.add_observation scriptedS0 matchObs) matchObs).obs_log
          = scriptedS0.obs_log.set j true ∨
       ∃ k, k < scriptedS0.obs_log.length ∧ k ≠ j ∧
         (scriptedS0.obs_log.set j true).getD k false = false ∧
         (Scripted_survey.add_observation
             (Scripted_survey.add_observation scriptedS0 matchObs) matchObs).obs_log
             = (scriptedS0.obs_log.set j true).set k true) :=
  scripted_add_observation_amended scriptedS0 matchObs (by decide) 0 (by decide) (by decide)
    ⟨by decide, by decide, by decide, by decide, by decide⟩

/-- An executed observation matching `wantedObs` exactly but taken at
epoch `T + tol`, the closed-interval boundary. -/
def boundaryObs : Observation := { wantedObs with mjd := 100 + 1 / 4, note := "x".toList }

/-- C6 counterexample: the executed observation's epoch equals
`T + tol`, inside the claim's closed interval `[T - tol, T + tol]`, and
matches the only (unlogged) entry's position and filter, yet
`add_observation` marks nothing — the source's window test is strict. -/
theorem scripted_add_boundary_cex :
    boundaryObs.mjd = wantedObs.mjd + scriptedS0.mjd_tol ∧
    boundaryObs.RA = wantedObs.RA ∧ boundaryObs.dec = wantedObs.dec ∧
    boundaryObs.filt = wantedObs.filt ∧
    scriptedS0.obs_log = [false] ∧
    (Scripted_survey.add_observation scriptedS0 boundaryObs).obs_log = [false] := by
  decide

/-- C7: for an executed observation whose annotation carries no ignore
tag and whose filter is in the pairing set, `add_observation` appends
exactly one clone with target epoch shifted by the configured gap when
the per-pixel same-night pairing counter maximum is below one, and
appends nothing when it is at least one. -/
theorem pairs_add_observation_pairing (p : PairsParams) (s : PairsState) (o : Observation)
    (indx : List Nat)
    (hig : p.ignore_obs.any (fun ig => containsSub ig o.note) = false)
    (hf : o.filt ∈ p.filt_to_pair) (m : ℚ)
    (hm : (indx.map s.pair_map).max? = some m) :
    (m < 1 → (Pairs_survey_scripted.add_observation p s o indx).queue
        = s.queue ++ [{ o with mjd := o.mjd + p.dt }]) ∧
    (1 ≤ m → (Pairs_survey_scripted.add_observation p s o indx).queue = s.queue) := by
  constructor
  · intro hlt
    simp [Pairs_survey_scripted.add_observation, hig, hf, hm, hlt]
  · intro hge
    simp [Pairs_survey_scripted.add_observation, hig, hf, hm, not_lt.mpr hge]

/-- A pairing state with an empty queue and a zero pairing counter. -/
def pairsState0 : PairsState := { queue := [], pair_map := fun _ => 0 }

/-- A pairing state with an empty queue and a pairing counter of two
(already paired tonight). -/
def pairsState1 : PairsState := { queue := [], pair_map := fun _ => 2 }

/-- C7 witness: at a concrete observation in filter `g`, a zero counter
appends exactly the gap-shifted clone and a counter of two appends
nothing. -/
theorem pairs_add_observation_pairing_witness :
    (Pairs_survey_scripted.add_observation pairsP0 pairsState0 pairObs0 [0]).queue
        = [{ pairObs0 with mjd := pairObs0.mjd + pairsP0.dt }] ∧
    (Pairs_survey_scripted.add_observation pairsP0 pairsState1 pairObs0 [0]).queue = [] :=
  ⟨(pairs_add_observation_pairing pairsP0 pairsState0 pairObs0 [0] (by decide) (by decide)
      0 (by decide)).1 (by decide),
   (pairs_add_observation_pairing pairsP0 pairsState1 pairObs0 [0] (by decide) (by decide)
      2 (by decide)).2 (by decide)⟩

/-- C8: when feasible, the generated sequence is the stored batch with
every entry stamped with expiry `mjd + approx_time + flush_pad`, only
mounted filters kept, split as loaded-filter entries first then the
rest, each side preserving the stored batch order, and is a permutation
of the stamped mounted batch. -/
theorem dd_generate_rough (s : DDState) (c : SurveyConditions)
    (h : Deep_drilling_survey._check_feasibility s c = true) :
    (∀ o ∈ Deep_drilling_survey.generate_observations_rough s c,
        o.flush_by_mjd = c.mjd + s.approx_time + s.flush_pad) ∧
    (∀ o ∈ Deep_drilling_survey.generate_observations_rough s c,
        o.filt ∈ c.mounted_filters) ∧
    (∃ A B, Deep_drilling_survey.generate_observations_rough s c = A ++ B ∧
      (∀ o ∈ A, ddMatchesCurrent c o = true) ∧
      (∀ o ∈ B, ddMatchesCurrent c o = false)) ∧
    (Deep_drilling_survey.generate_observations_rough s c).filter
        (fun o => ddMatchesCurrent c o) =
      ((s.observations.map (fun o =>
          { o with flush_by_mjd := c.mjd + s.approx_time + s.flush_pad })).filter
        (fun o => decide (o.filt ∈ c.mounted_filters))).filter
        (fun o => ddMatchesCurrent c o) ∧
    (Deep_drilling_survey.generate_observations_rough s c).filter
        (fun o => !ddMatchesCurrent c o) =
      ((s.observations.map (fun o =>
          { o with flush_by_mjd := c.mjd + s.approx_time + s.flush_pad })).filter
        (fun o => decide (o.filt ∈ c.mounted_filters))).filter
        (fun o => !ddMatchesCurrent c o) ∧
    (Deep_drilling_survey.generate_observations_rough s c).Perm
      ((s.observations.map (fun o =>
          { o with flush_by_mjd := c.mjd + s.approx_time + s.flush_pad })).filter
        (fun o => decide (o.filt ∈ c.mounted_filters))) := by
  have hgen : Deep_drilling_survey.generate_observations_rough s c =
      ((s.observations.map (fun o =>
          { o with flush_by_mjd := c.mjd + s.approx_time + s.flush_pad })).filter
        (fun o => decide (o.filt ∈ c.mounted_filters))).filter
        (fun o => ddMatchesCurrent c o) ++
      ((s.observations.map (fun o =>
          { o with flush_by_mjd := c.mjd + s.approx_time + s.flush_pad })).filter
        (fun o => decide (o.filt ∈ c.mounted_filters))).filter
        (fun o => !ddMatchesCurrent c o) := by
    simp [Deep_drilling_survey.generate_observations_rough, h]
  refine ⟨?_, ?_, ?_, ?_, ?_, ?_⟩
  · intro o ho
    rw [hgen] at ho
    rcases List.mem_append.mp ho with hm | hm <;>
    · have hm' := List.mem_of_mem_filter (List.mem_of_mem_filter hm)
      obtain ⟨o', _, rfl⟩ := List.mem_map.mp hm'
      rfl
  · intro o ho
    rw [hgen] at ho
    rcases List.mem_append.mp ho with hm | hm <;>
    · have hm' := List.of_mem_filter (List.mem_of_mem_filter hm)
      exact of_decide_eq_true hm'
  · refine ⟨_, _, hgen, ?_, ?_⟩
    · intro o ho
      exact List.of_mem_filter ho
    · intro o ho
      have := List.of_mem_filter ho
      simpa using this
  · rw [hgen]
    simp [List.filter_append, List.filter_filter, Bool.and_self, Bool.and_not_self]
    intro a _ h1 h2
    rw [h1] at h2
    exact Bool.noConfusion h2
  · rw [hgen]
    simp [List.filter_append, List.filter_filter, Bool.and_self, Bool.not_and_self]
    intro a _ h1 h2
    rw [h2] at h1
    exact Bool.noConfusion h1
  · rw [hgen]
    exact List.filter_append_perm _ _

/-- A concrete deep-drilling state: batch filters `rgiz`, one visit per
filter, built through the constructor (which sorts by filter). -/
def ddS0 : DDState :=
  match Deep_drilling_survey.init primTriv [] 9 (-44) "rgiz".toList [1, 1, 1, 1] 30 2
      "DD".toList (some 100) 2 120 30 with
  | .ok st => st
  | .error _ =>
    { observations := [], approx_time := 0, flush_pad := 0, reward_value := none,
      basis_functions := [] }

/-- C8 witness (end-to-end scenario 1): with mounted filters `r, g` and
loaded filter `r`, the `rgiz` batch generates only `r` and `g` entries
with the `r` entry first, and the generated sequence splits into a
loaded-filter part followed by the rest. -/
theorem dd_generate_rough_witness :
    Deep_drilling_survey._check_feasibility ddS0 surveyCondBenign = true ∧
    (Deep_drilling_survey.generate_observations_rough ddS0 surveyCondBenign).map
        (fun o => o.filt) = ['r', 'g'] ∧
    (∃ A B, Deep_drilling_survey.generate_observations_rough ddS0 surveyCondBenign
        = A ++ B ∧
      (∀ o ∈ A, ddMatchesCurrent surveyCondBenign o = true) ∧
      (∀ o ∈ B, ddMatchesCurrent surveyCondBenign o = false)) :=
  ⟨by decide, by decide,
   (dd_generate_rough ddS0 surveyCondBenign (by decide)).2.2.1⟩

/-- Inserting one observation grows a filter-sorted list by one. -/
theorem insertByFilter_length (o : Observation) (l : List Observation) :
    (insertByFilter o l).length = l.length + 1 := by
  induction l with
  | nil => rfl
  | cons x xs ih =>
    by_cases h : o.filt < x.filt
    · simp [insertByFilter, h]
    · simp [insertByFilter, h, ih]

/-- The constructor's filter sort preserves the batch size. -/
theorem sortByFilter_length (l : List Observation) :
    (sortByFilter l).length = l.length := by
  induction l with
  | nil => rfl
  | cons x xs ih => simp [sortByFilter, insertByFilter_length, ih]

/-- The batch-building loop produces one observation per visit counted
by the truncating `zip`. -/
theorem ddBuildObservations_length (sequence : List Char) (nvis : List Nat)
    (exptime ra dec nexp : ℚ) (survey_name : List Char) :
    (ddBuildObservations sequence nvis exptime ra dec nexp survey_name).length =
      ((nvis.zip sequence).map Prod.fst).sum := by
  unfold ddBuildObservations
  generalize nvis.zip sequence = l
  induction l with
  | nil => rfl
  | cons x xs ih => simp [ih]

/-- C9 (amended): the constructor performs no validation relating the
visit-count list to the filter sequence — `zip` silently truncates to
the shorter of the two, the survey is built from that prefix whenever it
is non-empty, and the only construction-time failure is the generic
`np.concatenate` error on an empty zipped batch. -/
theorem dd_init_no_length_check (prim : Primitives)
    (bfs : List (SurveyConditions → Bool)) (RA dec : ℚ) (sequence : List Char)
    (nvis : List Nat) (exptime nexp : ℚ) (survey_name : List Char)
    (reward_value : Option ℚ) (readtime filter_change_time flush_pad : ℚ) :
    (((nvis.zip sequence).map Prod.fst).sum ≠ 0 →
      ∃ st, Deep_drilling_survey.init prim bfs RA dec sequence nvis exptime nexp
          survey_name reward_value readtime filter_change_time flush_pad = .ok st ∧
        st.observations.length = ((nvis.zip sequence).map Prod.fst).sum) ∧
    (((nvis.zip sequence).map Prod.fst).sum = 0 →
      Deep_drilling_survey.init prim bfs RA dec sequence nvis exptime nexp
          survey_name reward_value readtime filter_change_time flush_pad =
        .error ("need at least one array to concatenate")) := by
  have hlen := ddBuildObservations_length sequence nvis exptime
    (prim.radians RA) (prim.radians dec) nexp survey_name
  constructor
  · intro hne
    have hnil : ddBuildObservations sequence nvis exptime
        (prim.radians RA) (prim.radians dec) nexp survey_name ≠ [] := by
      intro hq
      rw [hq] at hlen
      exact hne hlen.symm
    simp only [Deep_drilling_survey.init, if_neg hnil]
    exact ⟨_, rfl, by rw [sortByFilter_length, hlen]⟩
  · intro h0
    have hnil : ddBuildObservations sequence nvis exptime
        (prim.radians RA) (prim.radians dec) nexp survey_name = [] :=
      List.eq_nil_of_length_eq_zero (hlen.trans h0)
    simp only [Deep_drilling_survey.init, if_pos hnil]

/-- C9 witness: a one-element visit-count list against a two-filter
sequence still constructs successfully, with a single observation (the
zipped prefix). -/
theorem dd_init_no_length_check_witness :
    ∃ st, Deep_drilling_survey.init primTriv [] 0 0 ("rg").toList [1] 30 2
        "DD".toList none 2 120 30 = .ok st ∧
      st.observations.length = (([1].zip ("rg").toList).map Prod.fst).sum :=
  (dd_init_no_length_check primTriv [] 0 0 ("rg").toList [1] 30 2 ("DD").toList none
    2 120 30).1 (by decide)

/-- C9 counterexample: constructing with `nvis = [1]` against the
two-filter sequence `rg` — a length mismatch — raises no error at all:
the constructor succeeds, silently building from the zipped prefix. -/
theorem dd_init_mismatch_cex :
    (Deep_drilling_survey.init primTriv [] 0 0 ("rg").toList [1] 30 2
        "DD".toList none 2 120 30).isOk = true ∧
    ¬ ([1].length = ("rg".toList).length) := by
  constructor
  · decide
  · decide
